import Mathlib

/-!
Shallow embedding of the `suave` module of this repository: the
slot-attribute store and build coordinator (`SuaveAPI`), the beacon
event-client reconnect loop (`OpBeaconClient`), and the bundle data model
(`SBundle`, `BundleBody`, refund resolution, and the bundle wire format).

Conventions of the embedding:
  - Go `uint64` slot numbers, gas limits and timestamps are modelled as
    `Nat`; the only operations performed on them in this code are
    comparisons and copies, so no wrap-around can occur.
  - `common.Hash` (32 bytes) is modelled as a byte list; the Go zero value
    of a hash is 32 zero bytes.
  - Nilable Go pointers are modelled as `Option`; dereferencing a nil
    pointer (a Go panic) is modelled as the `none` case of an
    `Option`-valued result.
  - External collaborators that are not part of this repository's sources
    (chain-state lookup, execution backend, signature recovery, the
    Keccak-256 primitive, the binary transaction codec) are passed in as
    function parameters or modelled from the spec's boundary description;
    each such definition says so in its doc comment.
-/

/-! ## Basic external types -/

/-- Byte-string hash value (`common.Hash`, 32 bytes). -/
abbrev Hash := List UInt8

/-- Go zero value of `common.Hash`: 32 zero bytes. -/
def zeroHash : Hash := List.replicate 32 0

/-- Account address (`common.Address`), modelled abstractly. -/
abbrev Address := Nat

/-- Consensus-layer withdrawal record (`types.Withdrawal`), opaque here. -/
abbrev Withdrawal := Nat

/-- A chain block (`types.Block`), opaque here: only existence matters. -/
abbrev Block := Nat

/-- Modelled from the spec: a transaction (`types.Transaction`) is carried
by its exact binary encoding, since the spec requires the binary codec to
round-trip exactly and no other transaction internals are consumed by this
core. -/
structure Transaction where
  txBytes : List UInt8
deriving DecidableEq

/-- Modelled from the spec: `Transaction.MarshalBinary` of `core/types`
(external to src), the binary transaction encoder; it round-trips exactly
with `UnmarshalBinary`. -/
def Transaction.MarshalBinary (t : Transaction) : Except String (List UInt8) :=
  .ok t.txBytes

/-- Modelled from the spec: `Transaction.UnmarshalBinary` of `core/types`
(external to src), the binary transaction decoder. -/
def Transaction.UnmarshalBinary (bs : List UInt8) : Except String Transaction :=
  .ok ⟨bs⟩

/-- Modelled from the spec: the external transaction hash `tx.Hash()`,
a digest of the transaction's encoding; the digest primitive `keccak` is
abstracted as a parameter. -/
def Transaction.hashWith (keccak : List UInt8 → Hash) (t : Transaction) : Hash :=
  keccak t.txBytes

/-! ## Bundle data model (`core/types` suave additions, src/unnamed/part_003) -/

structure BundleInclusion where
  BlockNumber : Nat
  MaxBlockNumber : Nat
deriving DecidableEq

structure RefundConstraint where
  BodyIdx : Int
  Percent : Int
deriving DecidableEq

structure RefundConfig where
  Address : Address
  Percent : Int
deriving DecidableEq

structure BundleValidity where
  Refund : List RefundConstraint
  RefundConfig : List RefundConfig
deriving DecidableEq

mutual
/-- `SBundle`: a bundle of transactions that must be executed atomically.
The Go struct also holds a lazily-computed `hash atomic.Value` cache; the
cache is not part of the logical content and `SBundle.HashFn` below is the
pure function it memoises. -/
inductive SBundle where
  | mk (Inclusion : BundleInclusion) (Body : List BundleBody) (Validity : BundleValidity)

/-- `BundleBody` exactly as declared in the Go source: a struct of TWO
independently nilable pointers plus a flag — `Tx *Transaction`,
`Bundle *SBundle`, `CanRevert bool`. It is not a tagged union: both-`none`
and both-`some` values are representable. -/
inductive BundleBody where
  | mk (Tx : Option Transaction) (Bundle : Option SBundle) (CanRevert : Bool)
end

def SBundle.Inclusion : SBundle → BundleInclusion
  | .mk i _ _ => i

def SBundle.Body : SBundle → List BundleBody
  | .mk _ b _ => b

def SBundle.Validity : SBundle → BundleValidity
  | .mk _ _ v => v

def BundleBody.Tx : BundleBody → Option Transaction
  | .mk t _ _ => t

def BundleBody.Bundle : BundleBody → Option SBundle
  | .mk _ b _ => b

def BundleBody.CanRevert : BundleBody → Bool
  | .mk _ _ c => c

mutual
/-- `SBundle.Hash`: hashes of the body elements are collected in body
order; a single-element list reduces to that element's hash, otherwise the
keccak digest of the concatenation of the element hashes is taken
(`hasher.Write(h[:])` for each, then `Sum`). The Go method memoises the
result in an `atomic.Value`; the memoised value is exactly this pure
function of the body, so the embedding drops the cache. The Keccak-256
primitive (external library `golang.org/x/crypto/sha3`) is abstracted as
the `keccak` parameter. -/
def SBundle.HashFn (keccak : List UInt8 → Hash) : SBundle → Hash
  | .mk _ body _ =>
    let bodyHashes := bodyHashList keccak body
    if bodyHashes.length = 1 then bodyHashes.headD zeroHash
    else keccak bodyHashes.flatten

/-- The `bodyHashes` slice of `SBundle.Hash`, one hash per body element in
order. -/
def bodyHashList (keccak : List UInt8 → Hash) : List BundleBody → List Hash
  | [] => []
  | b :: rest => bodyHash keccak b :: bodyHashList keccak rest

/-- One entry of the `bodyHashes` slice: `if body.Tx != nil` use the
transaction hash, `else if body.Bundle != nil` use the nested bundle hash;
with neither set, the slice entry keeps its `make`-allocated zero value. -/
def bodyHash (keccak : List UInt8 → Hash) : BundleBody → Hash
  | .mk (some t) _ _ => t.hashWith keccak
  | .mk none (some sb) _ => SBundle.HashFn keccak sb
  | .mk none none _ => zeroHash
end

/-- The external signature-recovery capability `signer.Sender(tx)`
(`types.Signer`, external to src), as a function parameter. -/
abbrev Signer := Transaction → Except String Address

/-- `ErrIncorrectRefundConfig` from the Go source. -/
def ErrIncorrectRefundConfig : String := "incorrect refund config"

/-- `GetRefundConfig(body, signer)`: a body wrapping a transaction
resolves to the signer-recovered sender at 100 percent (a signer error is
returned verbatim); a body wrapping a nested bundle returns the bundle's
explicit `Validity.RefundConfig` when non-empty, fails with
`ErrIncorrectRefundConfig` when the nested bundle has no config and an
empty body, and otherwise recurses into the nested bundle's first body
element; a body with neither pointer set fails with
`ErrIncorrectRefundConfig`. -/
def GetRefundConfig (signer : Signer) : BundleBody → Except String (List RefundConfig)
  | .mk (some tx) _ _ =>
    match signer tx with
    | .error e => .error e
    | .ok address => .ok [⟨address, 100⟩]
  | .mk none (some (.mk _ bbody validity)) _ =>
    if validity.RefundConfig.length > 0 then .ok validity.RefundConfig
    else
      match bbody with
      | [] => .error ErrIncorrectRefundConfig
      | first :: _ => GetRefundConfig signer first
  | .mk none none _ => .error ErrIncorrectRefundConfig
decreasing_by
  simp_wf
  omega

/-! ## Bundle wire format (src/unnamed/part_003) -/

/-- `SBundleFromSuave`: the bundle shape received from the suave side.
`*big.Int` fields are modelled as `Option Int`, `*int` as `Option Int`. -/
structure SBundleFromSuave where
  BlockNumber : Option Int
  MaxBlock : Option Int
  Txs : List Transaction
  RevertingHashes : List Hash
  RefundPercent : Option Int
deriving DecidableEq

/-- `RpcSBundle`: the JSON wire shape. `hexutil.Big`/`hexutil.Bytes` are
faithful value encodings, so they are modelled by the values themselves;
the `encoding/json` layer (external) is a bijection on this struct and is
elided. -/
structure RpcSBundle where
  BlockNumber : Option Int
  MaxBlock : Option Int
  Txs : List (List UInt8)
  RevertingHashes : List Hash
  RefundPercent : Option Int
deriving DecidableEq

/-- The `for _, tx := range s.Txs` encoding loop of `MarshalJSON`:
binary-encode each transaction, failing on the first error. -/
def encodeTxs : List Transaction → Except String (List (List UInt8))
  | [] => .ok []
  | tx :: rest =>
    match tx.MarshalBinary with
    | .error e => .error e
    | .ok txBytes =>
      match encodeTxs rest with
      | .error e => .error e
      | .ok txs => .ok (txBytes :: txs)

/-- The `for _, txBytes := range rpcSBundle.Txs` decoding loop of
`UnmarshalJSON`. -/
def decodeTxs : List (List UInt8) → Except String (List Transaction)
  | [] => .ok []
  | txBytes :: rest =>
    match Transaction.UnmarshalBinary txBytes with
    | .error e => .error e
    | .ok tx =>
      match decodeTxs rest with
      | .error e => .error e
      | .ok txs => .ok (tx :: txs)

/-- `SBundleFromSuave.MarshalJSON` up to the external JSON text layer: the
`RpcSBundle` literal it serialises. Note that the Go composite literal
assigns `BlockNumber`, `Txs`, `RevertingHashes` and `RefundPercent` but
NOT `MaxBlock`, which is therefore left at its nil zero value. -/
def SBundleFromSuave.MarshalJSON (s : SBundleFromSuave) : Except String RpcSBundle :=
  match encodeTxs s.Txs with
  | .error e => .error e
  | .ok txs =>
    .ok { BlockNumber := s.BlockNumber
          MaxBlock := none
          Txs := txs
          RevertingHashes := s.RevertingHashes
          RefundPercent := s.RefundPercent }

/-- `SBundleFromSuave.UnmarshalJSON` up to the external JSON text layer:
decode every transaction, then copy all five fields (including
`MaxBlock`). -/
def SBundleFromSuave.UnmarshalJSON (r : RpcSBundle) : Except String SBundleFromSuave :=
  match decodeTxs r.Txs with
  | .error e => .error e
  | .ok txs =>
    .ok { BlockNumber := r.BlockNumber
          MaxBlock := r.MaxBlock
          Txs := txs
          RevertingHashes := r.RevertingHashes
          RefundPercent := r.RefundPercent }

/-- Marshal followed by unmarshal: the round trip of the wire format. -/
def sbundleRoundTrip (s : SBundleFromSuave) : Except String SBundleFromSuave :=
  match s.MarshalJSON with
  | .error e => .error e
  | .ok r => SBundleFromSuave.UnmarshalJSON r

/-! ## Builder payload attributes (src/unnamed/part_002) -/

/-- `types.BuilderPayloadAttributes`. `ParentBeaconBlockRoot` is a nilable
pointer in Go, hence an `Option`. -/
structure BuilderPayloadAttributes where
  Timestamp : Nat
  Random : Hash
  SuggestedFeeRecipient : Address
  Slot : Nat
  HeadHash : Hash
  Withdrawals : List Withdrawal
  ParentBeaconBlockRoot : Option Hash
  Transactions : List Transaction
  GasLimit : Nat
deriving DecidableEq

/-- The Go zero value of `BuilderPayloadAttributes`: the `slotAttrs` field
of a freshly constructed `SuaveAPI` before any event has been accepted. -/
def BuilderPayloadAttributes.zero : BuilderPayloadAttributes :=
  { Timestamp := 0
    Random := zeroHash
    SuggestedFeeRecipient := 0
    Slot := 0
    HeadHash := zeroHash
    Withdrawals := []
    ParentBeaconBlockRoot := none
    Transactions := []
    GasLimit := 0 }

/-! ## SuaveAPI: store and build operations (src/unnamed/part_001) -/

/-- The mutable state of `SuaveAPI` relevant to the store and the build
operations: the mutex-guarded `slotAttrs`. (The mutex itself is a
concurrency artefact; each critical section is a single read or write of
this field.) -/
structure SuaveState where
  slotAttrs : BuilderPayloadAttributes
deriving DecidableEq

/-- `SuaveState` of a freshly constructed `SuaveAPI` (`NewSuaveAPI`):
`slotAttrs` is the Go zero value. -/
def initialSuaveState : SuaveState :=
  { slotAttrs := BuilderPayloadAttributes.zero }

/-- The external chain-state lookup `BlockChain().GetBlockByHash`,
returning nil (`none`) when the block is unknown. -/
abbrev BlockByHash := Hash → Option Block

/-- `SuaveAPI.OnPayloadAttribute`: look the candidate's `HeadHash` up in
the chain state; if the parent block is not found, return an error and
leave the state alone; otherwise overwrite `slotAttrs` with the candidate.
There is no slot comparison in this function. -/
def OnPayloadAttribute (getBlockByHash : BlockByHash) (st : SuaveState)
    (attrs : BuilderPayloadAttributes) : SuaveState × Except String Unit :=
  match getBlockByHash attrs.HeadHash with
  | none => (st, .error "could not find parent block with hash")
  | some _ => ({ slotAttrs := attrs }, .ok ())

/-- `types.BuildBlockArgs` as consumed by the backend build calls. -/
structure BuildBlockArgs where
  Slot : Nat
  Parent : Hash
  Timestamp : Nat
  FeeRecipient : Address
  GasLimit : Nat
  Random : Hash
  Withdrawals : List Withdrawal
  BeaconRoot : Hash
  FillPending : Bool
  Transactions : List Transaction
deriving DecidableEq

/-- `engine.ExecutionPayloadEnvelope`, at the granularity this core uses
it: the built block and its profit annotation. -/
structure ExecutionPayloadEnvelope where
  ExecutionPayload : Block
  BlockValue : Int
deriving DecidableEq

/-- Modelled from the spec: `engine.BlockToExecutableData(block, fees,
nil)` (external to src) wraps a block and its proceeds into the envelope
format. -/
def BlockToExecutableData (block : Block) (fees : Int) : ExecutionPayloadEnvelope :=
  { ExecutionPayload := block, BlockValue := fees }

/-- The external backend operation `APIBackend.BuildBlockFromTxs`. -/
abbrev TxBuildBackend := BuildBlockArgs → List Transaction → Except String (Block × Int)

/-- The external backend operation `APIBackend.BuildBlockFromBundles`. -/
abbrev BundleBuildBackend :=
  BuildBlockArgs → List SBundleFromSuave → Except String (Block × Int)

/-- `SuaveAPI.BuildEthBlock`: the caller's `buildArgs` is shadowed by a
fresh `BuildBlockArgs` whose every field but `FillPending` comes from the
stored `slotAttrs`; the `BeaconRoot` field dereferences the
`ParentBeaconBlockRoot` pointer, which panics (result `none`) when that
pointer is nil; then the backend is called and an error from it is
returned verbatim, otherwise the block is wrapped into the envelope. -/
def BuildEthBlock (st : SuaveState) (backend : TxBuildBackend)
    (buildArgs : BuildBlockArgs) (txs : List Transaction) :
    Option (Except String ExecutionPayloadEnvelope) :=
  match st.slotAttrs.ParentBeaconBlockRoot with
  | none => none
  | some root =>
    let finalArgs : BuildBlockArgs :=
      { Slot := st.slotAttrs.Slot
        Parent := st.slotAttrs.HeadHash
        Timestamp := st.slotAttrs.Timestamp
        FeeRecipient := st.slotAttrs.SuggestedFeeRecipient
        GasLimit := st.slotAttrs.GasLimit
        Random := st.slotAttrs.Random
        Withdrawals := st.slotAttrs.Withdrawals
        BeaconRoot := root
        FillPending := buildArgs.FillPending
        Transactions := st.slotAttrs.Transactions }
    some ((backend finalArgs txs).map fun bp => BlockToExecutableData bp.1 bp.2)

/-- `SuaveAPI.BuildEthBlockFromBundles`: identical argument override (the
same composite literal), but delegating to the bundle-based backend. -/
def BuildEthBlockFromBundles (st : SuaveState) (backend : BundleBuildBackend)
    (buildArgs : BuildBlockArgs) (bundles : List SBundleFromSuave) :
    Option (Except String ExecutionPayloadEnvelope) :=
  match st.slotAttrs.ParentBeaconBlockRoot with
  | none => none
  | some root =>
    let finalArgs : BuildBlockArgs :=
      { Slot := st.slotAttrs.Slot
        Parent := st.slotAttrs.HeadHash
        Timestamp := st.slotAttrs.Timestamp
        FeeRecipient := st.slotAttrs.SuggestedFeeRecipient
        GasLimit := st.slotAttrs.GasLimit
        Random := st.slotAttrs.Random
        Withdrawals := st.slotAttrs.Withdrawals
        BeaconRoot := root
        FillPending := buildArgs.FillPending
        Transactions := st.slotAttrs.Transactions }
    some ((backend finalArgs bundles).map fun bp => BlockToExecutableData bp.1 bp.2)

/-! ## The dispatch loop of `SuaveAPI.Start` (src/unnamed/part_001) -/

/-- State carried across iterations of the dispatch goroutine of
`SuaveAPI.Start`: the local `currentSlot` counter and the `SuaveAPI`
store state. -/
structure DispatchState where
  currentSlot : Nat
  api : SuaveState
deriving DecidableEq

/-- Initial dispatch state: `currentSlot := uint64(0)` over the fresh
store. -/
def initialDispatchState : DispatchState :=
  { currentSlot := 0, api := initialSuaveState }

/-- One `payloadAttributes := <-c` iteration of the dispatch loop: a slot
at most `currentSlot` is skipped (`continue`); a greater slot first
advances `currentSlot` and only then calls `OnPayloadAttribute`, whose
error (if any) is merely logged, leaving `currentSlot` advanced. -/
def dispatchStep (getBlockByHash : BlockByHash) (st : DispatchState)
    (payloadAttributes : BuilderPayloadAttributes) : DispatchState :=
  if payloadAttributes.Slot ≤ st.currentSlot then st
  else
    let currentSlot := payloadAttributes.Slot
    let (api, _err) := OnPayloadAttribute getBlockByHash st.api payloadAttributes
    { currentSlot := currentSlot, api := api }

/-! ## The beacon event-client reconnect loop (src/suave/beacon.go) -/

/-- What one `client.SubscribeWithContext` call reported: `some msg` when
the subscribe call returned an error (the `err != nil` branch logs and
sleeps one second), `none` when it returned nil (the stream ended). -/
abbrev SubscribeReport := Option String

/-- Control flow at the bottom of one iteration of the `for` loop of
`SubscribeToPayloadAttributesEvents`. The loop body contains no `return`,
no `break` and no check of the cancelled context: both the error branch
(log, sleep) and the nil branch (log) fall through to the next iteration,
whatever the context's cancellation state. -/
inductive LoopControl where
  | continueLoop
  | exitLoop
deriving DecidableEq

/-- One iteration's control-flow outcome, from the source's loop body. -/
def subscribeLoopBody (ctxCancelled : Bool) (report : SubscribeReport) : LoopControl :=
  match report with
  | some _ => LoopControl.continueLoop
  | none => LoopControl.continueLoop

/-- Run the reconnect loop for `n` iterations: returns (whether the loop
has exited, how many `SubscribeWithContext` attempts were made). Each
iteration makes exactly one subscription attempt; `report` gives the
attempt's outcome as a function of the attempt index. -/
def subscribeLoopRun (ctxCancelled : Bool) (report : Nat → SubscribeReport) :
    Nat → Bool × Nat
  | 0 => (false, 0)
  | n + 1 =>
    match subscribeLoopRun ctxCancelled report n with
    | (true, attempts) => (true, attempts)
    | (false, attempts) =>
      match subscribeLoopBody ctxCancelled (report attempts) with
      | LoopControl.exitLoop => (true, attempts + 1)
      | LoopControl.continueLoop => (false, attempts + 1)

/-! ## Shared helper lemmas -/

/-- `bodyHashList` produces one hash per body element. -/
theorem bodyHashList_length (keccak : List UInt8 → Hash) :
    ∀ l : List BundleBody, (bodyHashList keccak l).length = l.length := by
  intro l
  induction l with
  | nil => simp [bodyHashList]
  | cons b rest ih => simp [bodyHashList, ih]

/-- The modelled binary transaction encoder never fails and encodes
field-wise. -/
theorem encodeTxs_eq (ts : List Transaction) :
    encodeTxs ts = .ok (ts.map Transaction.txBytes) := by
  induction ts with
  | nil => rfl
  | cons t rest ih => simp [encodeTxs, Transaction.MarshalBinary, ih]

/-- The modelled binary transaction decoder never fails and decodes
field-wise. -/
theorem decodeTxs_eq (bss : List (List UInt8)) :
    decodeTxs bss = .ok (bss.map fun bs => ⟨bs⟩) := by
  induction bss with
  | nil => rfl
  | cons bs rest ih => simp [decodeTxs, Transaction.UnmarshalBinary, ih]

/-! ## Claim theorems -/

/-- C1: a build request (either `BuildEthBlock` or
`BuildEthBlockFromBundles`) arriving while `slotAttrs` is still the fresh
zero value — before any `SlotAttributes` has been accepted — does not
produce a `NoSlotAttributesYet` error value (no such check or error exists
in the code): it crashes by dereferencing the nil
`ParentBeaconBlockRoot` pointer (result `none`), before the backend could
be consulted, as witnessed by the result being the same for every
backend. -/
theorem C1_build_before_attrs_panics :
    ∀ (backendT : TxBuildBackend) (backendB : BundleBuildBackend)
      (buildArgs : BuildBlockArgs) (txs : List Transaction)
      (bundles : List SBundleFromSuave),
      BuildEthBlock initialSuaveState backendT buildArgs txs = none ∧
      BuildEthBlockFromBundles initialSuaveState backendB buildArgs bundles = none := by
  intro backendT backendB buildArgs txs bundles
  exact ⟨rfl, rfl⟩

/-- C2 counterexample: with a record of slot 5 stored and a candidate of
slot 3 whose parent block IS found, `OnPayloadAttribute` replaces the
stored record (and reports success) although `3 ≤ 5` — refuting the claim
that the store itself discards stale slots. -/
theorem C2_counterexample :
    (3 : Nat) ≤ 5 ∧
    (OnPayloadAttribute (fun _ => some 0)
        { slotAttrs := { BuilderPayloadAttributes.zero with Slot := 5 } }
        { BuilderPayloadAttributes.zero with Slot := 3 }).1.slotAttrs ≠
      { BuilderPayloadAttributes.zero with Slot := 5 } := by
  refine ⟨by omega, ?_⟩
  intro h
  have := congrArg BuilderPayloadAttributes.Slot h
  simp [OnPayloadAttribute, BuilderPayloadAttributes.zero] at this

/-- C2 amended: `OnPayloadAttribute` performs no slot comparison at all;
for every candidate whose parent block is found — in particular for every
candidate whose slot is at most the stored slot — it replaces the stored
record with the candidate and reports no error. The stale-slot check
exists only in the dispatch loop of `Start`. -/
theorem C2_store_replaces_even_stale_slots (getBlockByHash : BlockByHash)
    (st : SuaveState) (attrs : BuilderPayloadAttributes) (b : Block)
    (hstale : attrs.Slot ≤ st.slotAttrs.Slot)
    (hfound : getBlockByHash attrs.HeadHash = some b) :
    OnPayloadAttribute getBlockByHash st attrs = ({ slotAttrs := attrs }, .ok ()) := by
  simp [OnPayloadAttribute, hfound]

/-- C2 amended witness. -/
theorem C2_witness :
    OnPayloadAttribute (fun _ => some 0)
        { slotAttrs := { BuilderPayloadAttributes.zero with Slot := 5 } }
        { BuilderPayloadAttributes.zero with Slot := 3 } =
      ({ slotAttrs := { BuilderPayloadAttributes.zero with Slot := 3 } }, .ok ()) :=
  C2_store_replaces_even_stale_slots (fun _ => some 0)
    { slotAttrs := { BuilderPayloadAttributes.zero with Slot := 5 } }
    { BuilderPayloadAttributes.zero with Slot := 3 } 0 (by decide) rfl

/-- C3: when the stored `slotAttrs` has a (non-nil) beacon parent root,
each build operation calls its backend with arguments whose slot, parent,
timestamp, fee recipient, gas limit, randomness, withdrawals, beacon root
and transaction list come entirely from the stored `slotAttrs`; the only
caller-dependent field of the final arguments is `FillPending`. -/
theorem C3_slot_attrs_override (st : SuaveState) (backendT : TxBuildBackend)
    (backendB : BundleBuildBackend) (callerArgs : BuildBlockArgs)
    (txs : List Transaction) (bundles : List SBundleFromSuave) (root : Hash)
    (h : st.slotAttrs.ParentBeaconBlockRoot = some root) :
    BuildEthBlock st backendT callerArgs txs =
      some ((backendT
        { Slot := st.slotAttrs.Slot
          Parent := st.slotAttrs.HeadHash
          Timestamp := st.slotAttrs.Timestamp
          FeeRecipient := st.slotAttrs.SuggestedFeeRecipient
          GasLimit := st.slotAttrs.GasLimit
          Random := st.slotAttrs.Random
          Withdrawals := st.slotAttrs.Withdrawals
          BeaconRoot := root
          FillPending := callerArgs.FillPending
          Transactions := st.slotAttrs.Transactions } txs).map
        fun bp => BlockToExecutableData bp.1 bp.2) ∧
    BuildEthBlockFromBundles st backendB callerArgs bundles =
      some ((backendB
        { Slot := st.slotAttrs.Slot
          Parent := st.slotAttrs.HeadHash
          Timestamp := st.slotAttrs.Timestamp
          FeeRecipient := st.slotAttrs.SuggestedFeeRecipient
          GasLimit := st.slotAttrs.GasLimit
          Random := st.slotAttrs.Random
          Withdrawals := st.slotAttrs.Withdrawals
          BeaconRoot := root
          FillPending := callerArgs.FillPending
          Transactions := st.slotAttrs.Transactions } bundles).map
        fun bp => BlockToExecutableData bp.1 bp.2) := by
  constructor
  · simp only [BuildEthBlock, h]
  · simp only [BuildEthBlockFromBundles, h]

/-- C3 witness: a stored record with a beacon root and a backend echoing
its argument's slot. -/
theorem C3_witness :
    BuildEthBlock
        { slotAttrs :=
            { BuilderPayloadAttributes.zero with
                Slot := 5, ParentBeaconBlockRoot := some zeroHash } }
        (fun a _ => .ok (a.Slot, 0))
        { Slot := 0, Parent := zeroHash, Timestamp := 0, FeeRecipient := 0
          GasLimit := 0, Random := zeroHash, Withdrawals := []
          BeaconRoot := zeroHash, FillPending := false, Transactions := [] } [] =
      some (.ok (BlockToExecutableData 5 0)) ∧
    BuildEthBlockFromBundles
        { slotAttrs :=
            { BuilderPayloadAttributes.zero with
                Slot := 5, ParentBeaconBlockRoot := some zeroHash } }
        (fun a _ => .ok (a.Slot, 0))
        { Slot := 0, Parent := zeroHash, Timestamp := 0, FeeRecipient := 0
          GasLimit := 0, Random := zeroHash, Withdrawals := []
          BeaconRoot := zeroHash, FillPending := false, Transactions := [] } [] =
      some (.ok (BlockToExecutableData 5 0)) :=
  C3_slot_attrs_override
    { slotAttrs :=
        { BuilderPayloadAttributes.zero with
            Slot := 5, ParentBeaconBlockRoot := some zeroHash } }
    (fun a _ => .ok (a.Slot, 0)) (fun a _ => .ok (a.Slot, 0))
    { Slot := 0, Parent := zeroHash, Timestamp := 0, FeeRecipient := 0
      GasLimit := 0, Random := zeroHash, Withdrawals := []
      BeaconRoot := zeroHash, FillPending := false, Transactions := [] }
    [] [] zeroHash rfl

/-- C4: a candidate whose head hash the chain-state lookup does not know
makes `OnPayloadAttribute` return the unknown-parent error with the state
unchanged. -/
theorem C4_unknown_parent_rejected (getBlockByHash : BlockByHash)
    (st : SuaveState) (attrs : BuilderPayloadAttributes)
    (hmiss : getBlockByHash attrs.HeadHash = none) :
    OnPayloadAttribute getBlockByHash st attrs =
      (st, .error "could not find parent block with hash") := by
  simp [OnPayloadAttribute, hmiss]

/-- C4 witness. -/
theorem C4_witness :
    OnPayloadAttribute (fun _ => none) initialSuaveState BuilderPayloadAttributes.zero =
      (initialSuaveState, .error "could not find parent block with hash") :=
  C4_unknown_parent_rejected (fun _ => none) initialSuaveState
    BuilderPayloadAttributes.zero rfl

/-- C5: for a bundle with exactly one body element the hash is that
element's own hash — the transaction hash when the element carries a
transaction, the nested bundle's hash when it carries a bundle; for two or
more elements the hash is the digest of the concatenation of the element
hashes in body order; and hashing is deterministic — in this embedding the
hash is a pure function of the bundle (the Go `atomic.Value` cache
memoises exactly this function), so two computations on the same bundle
agree definitionally. -/
theorem C5_bundle_hash :
    (∀ (keccak : List UInt8 → Hash) (i : BundleInclusion) (v : BundleValidity)
        (t : Transaction) (ob : Option SBundle) (cr : Bool),
        SBundle.HashFn keccak (.mk i [.mk (some t) ob cr] v) = t.hashWith keccak) ∧
    (∀ (keccak : List UInt8 → Hash) (i : BundleInclusion) (v : BundleValidity)
        (sb : SBundle) (cr : Bool),
        SBundle.HashFn keccak (.mk i [.mk none (some sb) cr] v) =
          SBundle.HashFn keccak sb) ∧
    (∀ (keccak : List UInt8 → Hash) (i : BundleInclusion) (v : BundleValidity)
        (body : List BundleBody), 2 ≤ body.length →
        SBundle.HashFn keccak (.mk i body v) =
          keccak (bodyHashList keccak body).flatten) ∧
    (∀ (keccak : List UInt8 → Hash) (b : SBundle),
        SBundle.HashFn keccak b = SBundle.HashFn keccak b) := by
  refine ⟨?_, ?_, ?_, ?_⟩
  · intro keccak i v t ob cr
    simp [SBundle.HashFn, bodyHashList, bodyHash]
  · intro keccak i v sb cr
    simp [SBundle.HashFn, bodyHashList, bodyHash]
  · intro keccak i v body hlen
    have hl : (bodyHashList keccak body).length = body.length :=
      bodyHashList_length keccak body
    simp only [SBundle.HashFn]
    rw [if_neg (by omega)]
  · intro keccak b
    rfl

/-- C5 witness: a one-transaction bundle, a one-nested-bundle bundle, and
a two-element bundle, over a concrete digest function. -/
theorem C5_witness :
    SBundle.HashFn (fun l => 0 :: l)
        (.mk ⟨0, 0⟩ [.mk (some ⟨[7]⟩) none false] ⟨[], []⟩) =
      Transaction.hashWith (fun l => 0 :: l) ⟨[7]⟩ ∧
    SBundle.HashFn (fun l => 0 :: l)
        (.mk ⟨0, 0⟩
          [.mk none (some (.mk ⟨0, 0⟩ [.mk (some ⟨[7]⟩) none false] ⟨[], []⟩)) false]
          ⟨[], []⟩) =
      SBundle.HashFn (fun l => 0 :: l)
        (.mk ⟨0, 0⟩ [.mk (some ⟨[7]⟩) none false] ⟨[], []⟩) ∧
    SBundle.HashFn (fun l => 0 :: l)
        (.mk ⟨0, 0⟩ [.mk (some ⟨[7]⟩) none false, .mk (some ⟨[8]⟩) none false] ⟨[], []⟩) =
      (fun l => 0 :: l)
        (bodyHashList (fun l => 0 :: l)
          [.mk (some ⟨[7]⟩) none false, .mk (some ⟨[8]⟩) none false]).flatten :=
  ⟨C5_bundle_hash.1 (fun l => 0 :: l) ⟨0, 0⟩ ⟨[], []⟩ ⟨[7]⟩ none false,
   C5_bundle_hash.2.1 (fun l => 0 :: l) ⟨0, 0⟩ ⟨[], []⟩
     (.mk ⟨0, 0⟩ [.mk (some ⟨[7]⟩) none false] ⟨[], []⟩) false,
   C5_bundle_hash.2.2.1 (fun l => 0 :: l) ⟨0, 0⟩ ⟨[], []⟩
     [.mk (some ⟨[7]⟩) none false, .mk (some ⟨[8]⟩) none false] (by decide)⟩

/-- C6: `GetRefundConfig` resolves a transaction-carrying body to its
recovered sender at 100 percent; returns a nested bundle's non-empty
explicit refund configuration unchanged regardless of its body; recurses
into the first body element of a nested bundle with no explicit
configuration and a non-empty body; and fails with
`ErrIncorrectRefundConfig` for a nested bundle with no explicit
configuration and an empty body. -/
theorem C6_get_refund_config :
    (∀ (signer : Signer) (t : Transaction) (ob : Option SBundle) (cr : Bool)
        (a : Address), signer t = .ok a →
        GetRefundConfig signer (.mk (some t) ob cr) = .ok [⟨a, 100⟩]) ∧
    (∀ (signer : Signer) (i : BundleInclusion) (bbody : List BundleBody)
        (v : BundleValidity) (cr : Bool), v.RefundConfig ≠ [] →
        GetRefundConfig signer (.mk none (some (.mk i bbody v)) cr) =
          .ok v.RefundConfig) ∧
    (∀ (signer : Signer) (i : BundleInclusion) (first : BundleBody)
        (rest : List BundleBody) (v : BundleValidity) (cr : Bool),
        v.RefundConfig = [] →
        GetRefundConfig signer (.mk none (some (.mk i (first :: rest) v)) cr) =
          GetRefundConfig signer first) ∧
    (∀ (signer : Signer) (i : BundleInclusion) (v : BundleValidity) (cr : Bool),
        v.RefundConfig = [] →
        GetRefundConfig signer (.mk none (some (.mk i [] v)) cr) =
          .error ErrIncorrectRefundConfig) := by
  refine ⟨?_, ?_, ?_, ?_⟩
  · intro signer t ob cr a hsig
    simp [GetRefundConfig, hsig]
  · intro signer i bbody v cr hcfg
    have hpos : 0 < v.RefundConfig.length := List.length_pos.mpr hcfg
    cases bbody with
    | nil => simp [GetRefundConfig, hpos]
    | cons first rest => simp [GetRefundConfig, hpos]
  · intro signer i first rest v cr hcfg
    simp [GetRefundConfig, hcfg]
  · intro signer i v cr hcfg
    simp [GetRefundConfig, hcfg]

/-- C6 witness: concrete instances of all four refund-resolution cases. -/
theorem C6_witness :
    GetRefundConfig (fun _ => .ok 7) (.mk (some ⟨[1]⟩) none false) = .ok [⟨7, 100⟩] ∧
    GetRefundConfig (fun _ => .ok 7)
        (.mk none (some (.mk ⟨0, 0⟩ [] ⟨[], [⟨9, 50⟩]⟩)) false) = .ok [⟨9, 50⟩] ∧
    GetRefundConfig (fun _ => .ok 7)
        (.mk none (some (.mk ⟨0, 0⟩ [.mk (some ⟨[2]⟩) none true] ⟨[], []⟩)) false) =
      GetRefundConfig (fun _ => .ok 7) (.mk (some ⟨[2]⟩) none true) ∧
    GetRefundConfig (fun _ => .ok 7) (.mk none (some (.mk ⟨0, 0⟩ [] ⟨[], []⟩)) false) =
      .error ErrIncorrectRefundConfig :=
  ⟨C6_get_refund_config.1 (fun _ => .ok 7) ⟨[1]⟩ none false 7 rfl,
   C6_get_refund_config.2.1 (fun _ => .ok 7) ⟨0, 0⟩ [] ⟨[], [⟨9, 50⟩]⟩ false (by decide),
   C6_get_refund_config.2.2.1 (fun _ => .ok 7) ⟨0, 0⟩ (.mk (some ⟨[2]⟩) none true) []
     ⟨[], []⟩ false rfl,
   C6_get_refund_config.2.2.2 (fun _ => .ok 7) ⟨0, 0⟩ ⟨[], []⟩ false rfl⟩

/-- C7: the reconnect loop of `SubscribeToPayloadAttributesEvents` never
exits — in `n` iterations it is still running and has made exactly `n`
subscription attempts — REGARDLESS of whether the context has been
cancelled: the loop body contains no cancellation check and no exit path,
so firing the cancellation token does not stop the retry loop, and further
subscription attempts continue after cancellation (one per iteration). -/
theorem C7_subscribe_loop_never_stops :
    ∀ (ctxCancelled : Bool) (report : Nat → SubscribeReport) (n : Nat),
      subscribeLoopRun ctxCancelled report n = (false, n) := by
  intro ctxCancelled report n
  induction n with
  | zero => rfl
  | succ k ih =>
    rw [subscribeLoopRun, ih]
    have hbody : subscribeLoopBody ctxCancelled (report k) = LoopControl.continueLoop := by
      cases report k <;> rfl
    show (match subscribeLoopBody ctxCancelled (report k) with
      | LoopControl.exitLoop => (true, k + 1)
      | LoopControl.continueLoop => (false, k + 1)) = (false, k + 1)
    rw [hbody]

/-- C8 counterexample: a bundle whose `MaxBlock` is set does NOT survive
the marshal/unmarshal round trip — `MarshalJSON`'s `RpcSBundle` composite
literal never assigns `MaxBlock`, so the round trip returns the bundle
with `MaxBlock` nil. -/
theorem C8_counterexample :
    sbundleRoundTrip ⟨none, some 5, [], [], none⟩ = .ok ⟨none, none, [], [], none⟩ ∧
    (⟨none, none, [], [], none⟩ : SBundleFromSuave) ≠ ⟨none, some 5, [], [], none⟩ :=
  ⟨rfl, by decide⟩

/-- C8 amended: for EVERY bundle, marshaling then unmarshaling
round-trips `blockNumber`, `txs`, `revertingHashes` and `percent` but
erases `maxBlock` (the marshaler never writes it): the round trip returns
`b` with `MaxBlock` set to nil — equal to `b` exactly when `b.MaxBlock`
was already nil. -/
theorem C8_round_trip_drops_max_block (b : SBundleFromSuave) :
    sbundleRoundTrip b = .ok { b with MaxBlock := none } := by
  cases b with
  | mk bn mb txs rh rp =>
    have htx : decodeTxs (txs.map Transaction.txBytes) = .ok txs := by
      rw [decodeTxs_eq, List.map_map]
      have hcomp : ((fun bs => (⟨bs⟩ : Transaction)) ∘ Transaction.txBytes) = id := by
        funext t
        rfl
      rw [hcomp, List.map_id]
    simp [sbundleRoundTrip, SBundleFromSuave.MarshalJSON, SBundleFromSuave.UnmarshalJSON,
      encodeTxs_eq, htx]

/-- C9 counterexample: `BundleBody` is not a tagged union — the value with
neither the transaction nor the bundle case set is representable, and the
operations DO observe it through runtime checks: `GetRefundConfig` reaches
its neither-set runtime fallback and `bodyHash` (the per-element step of
`SBundle.Hash`) silently maps it to the zero hash. -/
theorem C9_counterexample :
    (BundleBody.mk none none false).Tx = none ∧
    (BundleBody.mk none none false).Bundle = none ∧
    GetRefundConfig (fun _ => .ok 0) (BundleBody.mk none none false) =
      .error ErrIncorrectRefundConfig ∧
    bodyHash (fun l => l) (BundleBody.mk none none false) = zeroHash := by
  refine ⟨rfl, rfl, ?_, rfl⟩
  simp [GetRefundConfig]

/-- C9 amended: the exactly-one-of discipline of `BundleBody` is not
structural — the type is a pair of independently optional fields, so
neither-set and both-set values exist — and it is enforced only by runtime
checks inside the operations: for every neither-set body,
`GetRefundConfig` fails with `ErrIncorrectRefundConfig` and the hash step
yields the zero hash; for every both-set body the transaction case takes
precedence. -/
theorem C9_runtime_checks :
    (∀ cr : Bool, (BundleBody.mk none none cr).Tx = none ∧
      (BundleBody.mk none none cr).Bundle = none) ∧
    (∀ (signer : Signer) (cr : Bool),
      GetRefundConfig signer (.mk none none cr) = .error ErrIncorrectRefundConfig) ∧
    (∀ (keccak : List UInt8 → Hash) (cr : Bool),
      bodyHash keccak (.mk none none cr) = zeroHash) ∧
    (∀ (keccak : List UInt8 → Hash) (t : Transaction) (sb : SBundle) (cr : Bool),
      bodyHash keccak (.mk (some t) (some sb) cr) = t.hashWith keccak) := by
  refine ⟨fun cr => ⟨rfl, rfl⟩, ?_, fun keccak cr => rfl, fun keccak t sb cr => rfl⟩
  intro signer cr
  simp [GetRefundConfig]

/-- C10: the dispatch loop advances its `currentSlot` counter before
attempting the store update, so when the update fails (here: unknown
parent block) the store is left untouched but the counter is advanced to
the failed slot — and every later delivery bearing that same slot number
is discarded as stale (a no-op), whatever the chain lookup then says: a
slot whose first delivery failed can never be accepted afterwards. -/
theorem C10_failed_slot_never_accepted (getBlockByHash : BlockByHash)
    (st : DispatchState) (attrs : BuilderPayloadAttributes)
    (hslot : st.currentSlot < attrs.Slot)
    (hmiss : getBlockByHash attrs.HeadHash = none) :
    (dispatchStep getBlockByHash st attrs).currentSlot = attrs.Slot ∧
    (dispatchStep getBlockByHash st attrs).api = st.api ∧
    ∀ (getBlockByHash2 : BlockByHash) (attrs2 : BuilderPayloadAttributes),
      attrs2.Slot = attrs.Slot →
      dispatchStep getBlockByHash2 (dispatchStep getBlockByHash st attrs) attrs2 =
        dispatchStep getBlockByHash st attrs := by
  have hstep : dispatchStep getBlockByHash st attrs =
      { currentSlot := attrs.Slot, api := st.api } := by
    unfold dispatchStep
    rw [if_neg (by omega)]
    simp [OnPayloadAttribute, hmiss]
  refine ⟨by rw [hstep], by rw [hstep], ?_⟩
  intro getBlockByHash2 attrs2 heq
  rw [hstep]
  unfold dispatchStep
  rw [if_pos (by simp [heq])]

/-- C10 witness: slot 3 over a fresh dispatch state with an empty chain
lookup; a redelivery of slot 3 with a lookup that now finds the block is
still discarded. -/
theorem C10_witness :
    (dispatchStep (fun _ => none) initialDispatchState
        { BuilderPayloadAttributes.zero with Slot := 3 }).currentSlot = 3 ∧
    (dispatchStep (fun _ => none) initialDispatchState
        { BuilderPayloadAttributes.zero with Slot := 3 }).api = initialSuaveState ∧
    ∀ (getBlockByHash2 : BlockByHash) (attrs2 : BuilderPayloadAttributes),
      attrs2.Slot = 3 →
      dispatchStep getBlockByHash2
          (dispatchStep (fun _ => none) initialDispatchState
            { BuilderPayloadAttributes.zero with Slot := 3 }) attrs2 =
        dispatchStep (fun _ => none) initialDispatchState
          { BuilderPayloadAttributes.zero with Slot := 3 } :=
  C10_failed_slot_never_accepted (fun _ => none) initialDispatchState
    { BuilderPayloadAttributes.zero with Slot := 3 } (by decide) rfl
